import Mathlib

/-!
Shallow embedding of the `POST /ask-jiji` request pipeline from
`src/server.js`: the in-memory rate limiter, input validation, the
configuration and auth gates, the parallel profile-upsert / resource-search
step, query logging, and response assembly.  External collaborators
(Supabase auth, database, storage) are modelled as inputs supplied in the
request environment; the handler's control flow and every literal it
returns are translated line by line from the source.
-/

namespace AskJiji

/-! ## Constants (`server.js` lines 35-37) -/

def MAX_QUERY_LENGTH : Nat := 500

def RATE_LIMIT_WINDOW_MS : Int := 60 * 1000

def RATE_LIMIT_MAX_REQUESTS : Nat := 30

/-! ## JavaScript string trimming

`String.prototype.trim` removes the ECMAScript WhiteSpace and
LineTerminator characters from both ends. -/

def isJsWhitespace (c : Char) : Bool :=
  c == '\t' || c == '\n' || c == '\x0B' || c == '\x0C' || c == '\r' || c == ' ' ||
  c == '\u00A0' || c == '\u1680' ||
  c == '\u2000' || c == '\u2001' || c == '\u2002' || c == '\u2003' ||
  c == '\u2004' || c == '\u2005' || c == '\u2006' || c == '\u2007' ||
  c == '\u2008' || c == '\u2009' || c == '\u200A' ||
  c == '\u2028' || c == '\u2029' || c == '\u202F' || c == '\u205F' ||
  c == '\u3000' || c == '\uFEFF'

def jsTrimList (l : List Char) : List Char :=
  ((l.dropWhile isJsWhitespace).reverse.dropWhile isJsWhitespace).reverse

def jsTrim (s : String) : String := String.mk (jsTrimList s.data)

/-! ## Rate limiter (`server.js` lines 38-58)

`rateLimitStore` is a `Map` from client key to `{windowStart, count}`;
we model it as a function to `Option WindowEntry`.  `isRateLimited`
returns the decision together with the updated store (the JS mutates the
map in place). -/

structure WindowEntry where
  windowStart : Int
  count : Nat
deriving DecidableEq, Repr

def RateLimitStore := String → Option WindowEntry

def emptyStore : RateLimitStore := fun _ => none

def storeSet (store : RateLimitStore) (ip : String) (e : WindowEntry) : RateLimitStore :=
  fun k => if k = ip then some e else store k

def isRateLimited (now : Int) (ip : String) (store : RateLimitStore) :
    Bool × RateLimitStore :=
  match store ip with
  | none => (false, storeSet store ip ⟨now, 1⟩)
  | some entry =>
    if now - entry.windowStart > RATE_LIMIT_WINDOW_MS then
      (false, storeSet store ip ⟨now, 1⟩)
    else
      let newCount := entry.count + 1
      (decide (newCount > RATE_LIMIT_MAX_REQUESTS),
       storeSet store ip ⟨entry.windowStart, newCount⟩)

/-- A sequence of sequential calls to `isRateLimited` for one client key,
one call per timestamp; returns the list of decisions and the final store. -/
def runCalls (ip : String) (times : List Int) (store : RateLimitStore) :
    List Bool × RateLimitStore :=
  match times with
  | [] => ([], store)
  | t :: ts =>
    let r := isRateLimited t ip store
    let rest := runCalls ip ts r.2
    (r.1 :: rest.1, rest.2)

/-! ## Client key derivation (`server.js` lines 40-41)

`req.headers["x-forwarded-for"]?.split(",")[0]?.trim() || req.ip`.
An absent `req.ip` is modelled as the empty string (both are falsy). -/

def splitFirstComma (s : String) : String :=
  String.mk (s.data.takeWhile (fun c => c ≠ ','))

def getClientIp (xff : Option String) (reqIp : String) : String :=
  match xff with
  | none => reqIp
  | some h =>
    let f := jsTrim (splitFirstComma h)
    if f = "" then reqIp else f

/-! ## Outcomes

One constructor per `return res.status(...)` statement in the handler,
plus the success response. -/

structure ResourceRecord where
  id : String
  title : String
  description : String
  type : String
  storage_path : String
deriving DecidableEq, Repr

structure ResourceWithLink where
  id : String
  title : String
  description : String
  type : String
  url : String
deriving DecidableEq, Repr

inductive Outcome where
  | rateLimited
  | invalidNotAString
  | invalidLength
  | misconfigured
  | unauthorized
  | profileSyncFailed (msg : String)
  | resourceFetchFailed (msg : String)
  | queryLogFailed (msg : String)
  | ok (answer : String) (resources : List ResourceWithLink)
deriving DecidableEq, Repr

/-! ## Request body validation (`server.js` lines 69-83)

The body's `query` field is an arbitrary JS value: absent, a string, or
some non-string value (whose truthiness is all the check ever looks at). -/

inductive QueryField where
  | missing
  | str (s : String)
  | nonString (truthy : Bool)
deriving DecidableEq, Repr

/-- `if (!query || typeof query !== "string") … ; const trimmedQuery =
query.trim(); if (trimmedQuery.length < 3 || trimmedQuery.length >
MAX_QUERY_LENGTH) …`.  A non-string value fails the `typeof` test whether
truthy or not; the empty string is falsy and fails the `!query` test. -/
def validateQuery : QueryField → Except Outcome String
  | QueryField.missing => Except.error Outcome.invalidNotAString
  | QueryField.nonString _ => Except.error Outcome.invalidNotAString
  | QueryField.str s =>
    if s = "" then Except.error Outcome.invalidNotAString
    else
      let trimmedQuery := jsTrim s
      if trimmedQuery.length < 3 ∨ trimmedQuery.length > MAX_QUERY_LENGTH then
        Except.error Outcome.invalidLength
      else
        Except.ok trimmedQuery

/-! ## Users and profile payload (`server.js` lines 105-108) -/

structure User where
  id : String
  fullName : Option String
deriving DecidableEq, Repr

structure ProfilePayload where
  id : String
  full_name : Option String
deriving DecidableEq, Repr

/-- `{ id: user.id, full_name: user.user_metadata?.full_name || null }`:
a falsy `full_name` (absent or empty) becomes `null`. -/
def profilePayload (u : User) : ProfilePayload :=
  ⟨u.id,
   match u.fullName with
   | some n => if n = "" then none else some n
   | none => none⟩

/-! ## Response assembly (`server.js` lines 146-160) -/

def answerTemplate (trimmedQuery : String) : String :=
  "Here's a quick overview for: \"" ++ trimmedQuery ++
    "\". Review the resources below for deeper learning."

/-- `resourcesWithLinks`: project each fetched record to the public shape,
resolving its storage path through the storage collaborator
(`supabase.storage.from("learning-resources").getPublicUrl`). -/
def resourcesWithLinks (getPublicUrl : String → String)
    (resources : List ResourceRecord) : List ResourceWithLink :=
  resources.map (fun r =>
    ⟨r.id, r.title, r.description, r.type, getPublicUrl r.storage_path⟩)

/-! ## HTTP responses -/

inductive RespBody where
  | failure (error : String) (details : Option String)
  | success (requestId : String) (answer : String) (resources : List ResourceWithLink)
deriving DecidableEq, Repr

def RespBody.errorMsg : RespBody → Option String
  | RespBody.failure e _ => some e
  | RespBody.success _ _ _ => none

def RespBody.detailsField : RespBody → Option String
  | RespBody.failure _ d => d
  | RespBody.success _ _ _ => none

structure Response where
  status : Nat
  xRequestId : String
  body : RespBody
deriving DecidableEq, Repr

/-- Each outcome's HTTP status and JSON body, copied from the
corresponding `return res.status(...).json({...})` in the handler.  The
`X-Request-Id` header is set once at the top of the handler and therefore
appears on every branch. -/
def renderResponse (rid : String) : Outcome → Response
  | Outcome.rateLimited =>
    ⟨429, rid, RespBody.failure "Too many requests. Please retry later." none⟩
  | Outcome.invalidNotAString =>
    ⟨400, rid, RespBody.failure "Query must be a non-empty string." none⟩
  | Outcome.invalidLength =>
    ⟨400, rid, RespBody.failure
      ("Query must be between 3 and " ++ toString MAX_QUERY_LENGTH ++ " characters.") none⟩
  | Outcome.misconfigured =>
    ⟨500, rid, RespBody.failure
      "Server misconfiguration. Missing Supabase environment variables." none⟩
  | Outcome.unauthorized =>
    ⟨401, rid, RespBody.failure
      "Unauthorized. Provide a valid Supabase JWT in the Authorization header." none⟩
  | Outcome.profileSyncFailed msg =>
    ⟨500, rid, RespBody.failure "Failed to sync profile." (some msg)⟩
  | Outcome.resourceFetchFailed msg =>
    ⟨500, rid, RespBody.failure "Failed to fetch resources." (some msg)⟩
  | Outcome.queryLogFailed msg =>
    ⟨500, rid, RespBody.failure "Failed to save query." (some msg)⟩
  | Outcome.ok answer resources =>
    ⟨200, rid, RespBody.success rid answer resources⟩

/-! ## The request environment

Everything the handler reads besides the rate-limit store: the generated
request id, headers, body, environment configuration, and the results the
external Supabase collaborator would return for this request's auth
check, profile upsert, resource search, query insert, and public-URL
resolution. -/

structure ReqEnv where
  requestId : String
  xff : Option String
  reqIp : String
  now : Int
  query : QueryField
  supabaseUrl : String
  supabaseAnonKey : String
  authResult : Option User
  upsertError : Option String
  searchResult : Except String (List ResourceRecord)
  insertError : Option String
  getPublicUrl : String → String

/-- `const clientIp = getClientIp(req); if (clientIp && isRateLimited(clientIp))`:
short-circuit — with a falsy client key `isRateLimited` is never called,
so the store is untouched. -/
def rateGate (env : ReqEnv) (store : RateLimitStore) : Bool × RateLimitStore :=
  let clientIp := getClientIp env.xff env.reqIp
  if clientIp = "" then (false, store)
  else isRateLimited env.now clientIp store

/-- The pipeline from the auth check onward (`server.js` lines 88-160):
auth → parallel upsert/search (profile error checked first) → query
insert → assembly.  The returned Bool records whether the
`queries` insert was attempted. -/
def postAuth (env : ReqEnv) (trimmedQuery : String) : Outcome × Bool :=
  match env.authResult with
  | none => (Outcome.unauthorized, false)
  | some _user =>
    match env.upsertError with
    | some msg => (Outcome.profileSyncFailed msg, false)
    | none =>
      match env.searchResult with
      | Except.error msg => (Outcome.resourceFetchFailed msg, false)
      | Except.ok resources =>
        match env.insertError with
        | some msg => (Outcome.queryLogFailed msg, true)
        | none =>
          (Outcome.ok (answerTemplate trimmedQuery)
            (resourcesWithLinks env.getPublicUrl resources), true)

/-- The full `POST /ask-jiji` handler as an outcome: rate gate, then
validation, then the configuration check, then `postAuth`.  Also returns
the updated rate-limit store and whether the query insert was attempted. -/
def askJijiOutcome (env : ReqEnv) (store : RateLimitStore) :
    Outcome × RateLimitStore × Bool :=
  if (rateGate env store).1 then (Outcome.rateLimited, (rateGate env store).2, false)
  else
    match validateQuery env.query with
    | Except.error o => (o, (rateGate env store).2, false)
    | Except.ok trimmedQuery =>
      if env.supabaseUrl = "" ∨ env.supabaseAnonKey = "" then
        (Outcome.misconfigured, (rateGate env store).2, false)
      else
        ((postAuth env trimmedQuery).1, (rateGate env store).2, (postAuth env trimmedQuery).2)

structure HandlerOut where
  resp : Response
  store : RateLimitStore
  queryInserted : Bool

/-- The handler: compute the outcome and render it with the request id
generated at the top of the handler (`crypto.randomUUID()`). -/
def askJijiHandler (env : ReqEnv) (store : RateLimitStore) : HandlerOut :=
  let r := askJijiOutcome env store
  ⟨renderResponse env.requestId r.1, r.2.1, r.2.2⟩

deriving instance DecidableEq for Except

/-! ## Helper lemmas -/

lemma storeSet_self (store : RateLimitStore) (ip : String) (e : WindowEntry) :
    storeSet store ip e ip = some e := by
  simp [storeSet]

lemma isRateLimited_inWindow (now : Int) (ip : String) (store : RateLimitStore)
    (t1 : Int) (k : Nat) (hk : store ip = some ⟨t1, k⟩)
    (hwin : now - t1 ≤ RATE_LIMIT_WINDOW_MS) :
    isRateLimited now ip store =
      (decide (k + 1 > RATE_LIMIT_MAX_REQUESTS), storeSet store ip ⟨t1, k + 1⟩) := by
  unfold isRateLimited
  rw [hk]
  simp only [if_neg (not_lt.mpr hwin)]

lemma runCalls_inWindow (ip : String) (ts : List Int) (store : RateLimitStore)
    (t1 : Int) (k : Nat) (hk : store ip = some ⟨t1, k⟩)
    (hwin : ∀ t ∈ ts, t - t1 ≤ RATE_LIMIT_WINDOW_MS) :
    (runCalls ip ts store).1 =
      (List.range ts.length).map (fun j => decide (k + 1 + j > RATE_LIMIT_MAX_REQUESTS)) := by
  induction ts generalizing store k with
  | nil => simp [runCalls]
  | cons t ts ih =>
    have h1 := isRateLimited_inWindow t ip store t1 k hk
      (hwin t (List.mem_cons_self _ _))
    have h2 : storeSet store ip ⟨t1, k + 1⟩ ip = some ⟨t1, k + 1⟩ := storeSet_self _ _ _
    have h3 := ih (storeSet store ip ⟨t1, k + 1⟩) (k + 1) h2
      (fun t ht => hwin t (List.mem_cons_of_mem _ ht))
    simp only [runCalls, h1, h3, List.length_cons, List.range_succ_eq_map,
      List.map_cons, List.map_map]
    congr 1
    apply List.map_congr_left
    intro j _
    simp only [Function.comp_apply]
    exact decide_eq_decide.mpr (by omega)

lemma renderResponse_xRequestId (rid : String) (o : Outcome) :
    (renderResponse rid o).xRequestId = rid := by
  cases o <;> rfl

lemma postAuth_fst_ne_rateLimited (env : ReqEnv) (tq : String) :
    (postAuth env tq).1 ≠ Outcome.rateLimited := by
  cases ha : env.authResult with
  | none => simp [postAuth, ha]
  | some u =>
    cases hu : env.upsertError with
    | some m => simp [postAuth, ha, hu]
    | none =>
      cases hs : env.searchResult with
      | error m => simp [postAuth, ha, hu, hs]
      | ok rs =>
        cases hi : env.insertError with
        | some m => simp [postAuth, ha, hu, hs, hi]
        | none => simp [postAuth, ha, hu, hs, hi]

lemma validateQuery_error_cases (q : QueryField) (o : Outcome)
    (h : validateQuery q = Except.error o) :
    o = Outcome.invalidNotAString ∨ o = Outcome.invalidLength := by
  cases q with
  | missing =>
    left
    simpa [validateQuery] using h.symm
  | nonString b =>
    left
    simpa [validateQuery] using h.symm
  | str s =>
    by_cases hs : s = ""
    · left
      rw [validateQuery, if_pos hs] at h
      simpa using h.symm
    · rw [validateQuery, if_neg hs] at h
      by_cases hl : (jsTrim s).length < 3 ∨ (jsTrim s).length > MAX_QUERY_LENGTH
      · right
        rw [if_pos hl] at h
        simpa using h.symm
      · rw [if_neg hl] at h
        simp at h

lemma askJijiOutcome_postAuth (env : ReqEnv) (store : RateLimitStore) (tq : String)
    (hrl : (rateGate env store).1 = false)
    (hq : validateQuery env.query = Except.ok tq)
    (hurl : env.supabaseUrl ≠ "") (hkey : env.supabaseAnonKey ≠ "") :
    askJijiOutcome env store =
      ((postAuth env tq).1, (rateGate env store).2, (postAuth env tq).2) := by
  unfold askJijiOutcome
  rw [hrl, hq]
  simp only [Bool.false_eq_true, if_false]
  rw [if_neg (by simp [hurl, hkey])]

/-- **C2.** For every client key, starting from a fresh or expired window,
each of the first 30 calls to `isRateLimited` within 60 seconds of the new
window's start returns `false` (allowed) and the 31st call within that
same window returns `true` (denied). -/
theorem rateLimiter_first30_allowed_31st_denied
    (ip : String) (store : RateLimitStore) (t1 : Int) (rest : List Int)
    (hfresh : store ip = none ∨
      ∃ e, store ip = some e ∧ t1 - e.windowStart > RATE_LIMIT_WINDOW_MS)
    (hwin : ∀ t ∈ rest, t - t1 ≤ RATE_LIMIT_WINDOW_MS)
    (hlen : rest.length = 30) :
    (runCalls ip (t1 :: rest) store).1 = List.replicate 30 false ++ [true] := by
  have hfirst : isRateLimited t1 ip store = (false, storeSet store ip ⟨t1, 1⟩) := by
    rcases hfresh with h | ⟨e, he, hexp⟩
    · unfold isRateLimited
      rw [h]
    · unfold isRateLimited
      rw [he]
      simp [hexp]
  simp only [runCalls, hfirst]
  rw [runCalls_inWindow ip rest _ t1 1 (storeSet_self _ _ _) hwin, hlen]
  decide

/-- Witness for C2 at a concrete client key, timestamps and the empty
store: 31 calls at times within the window, first 30 allowed, 31st denied. -/
theorem rateLimiter_first30_allowed_31st_denied_witness :
    emptyStore "1.2.3.4" = none ∧
    (∀ t ∈ List.replicate 30 (5 : Int), t - 5 ≤ RATE_LIMIT_WINDOW_MS) ∧
    (List.replicate 30 (5 : Int)).length = 30 ∧
    (runCalls "1.2.3.4" ((5 : Int) :: List.replicate 30 5) emptyStore).1 =
      List.replicate 30 false ++ [true] :=
  ⟨rfl, by decide, by decide,
   rateLimiter_first30_allowed_31st_denied "1.2.3.4" emptyStore 5
     (List.replicate 30 5) (Or.inl rfl) (by decide) (by decide)⟩

/-! ## Concrete request environments used as test inputs -/

/-- A request with an invalid (too short) query and no verified user. -/
def envShortQueryNoUser : ReqEnv :=
  ⟨"rid-c1", none, "", 0, QueryField.str "ab", "https://x.supabase.co", "anon-key",
   none, none, Except.ok [], none, fun p => p⟩

/-- A request with a valid query and no verified user. -/
def envValidQueryNoUser : ReqEnv :=
  ⟨"rid-c1w", none, "", 0, QueryField.str "RAG basics", "https://x.supabase.co", "anon-key",
   none, none, Except.ok [], none, fun p => p⟩

/-- An authenticated request where both the profile upsert and the
resource search fail. -/
def envBothParallelFail : ReqEnv :=
  ⟨"rid-c3", none, "", 0, QueryField.str "RAG basics", "https://x.supabase.co", "anon-key",
   some ⟨"user-1", none⟩, some "upsert boom", Except.error "search boom", none, fun p => p⟩

/-- An authenticated request where the profile upsert succeeds and the
resource search fails. -/
def envSearchFails : ReqEnv :=
  ⟨"rid-c3w", none, "", 0, QueryField.str "RAG basics", "https://x.supabase.co", "anon-key",
   some ⟨"user-1", none⟩, none, Except.error "search boom", none, fun p => p⟩

/-- An authenticated request where the profile upsert fails while the
resource search succeeds. -/
def envUpsertFails : ReqEnv :=
  ⟨"rid-c6", none, "", 0, QueryField.str "RAG basics", "https://x.supabase.co", "anon-key",
   some ⟨"user-1", none⟩, some "duplicate key", Except.ok [⟨"r1", "t", "d", "video", "p"⟩],
   none, fun p => p⟩

/-- A request whose derived client key is empty: no forwarded header and
no transport peer address. -/
def envNoClientKey : ReqEnv :=
  ⟨"rid-c10", none, "", 0, QueryField.str "RAG basics", "https://x.supabase.co", "anon-key",
   none, none, Except.ok [], none, fun p => p⟩

/-! ## Claim C1 -/

/-- **C1 counterexample.** A request lacking a valid bearer credential but
carrying an invalid (too short) query is answered with `400`, not `401`:
validation runs before authentication, so the response is not `401`
regardless of query validity. -/
theorem unauth_invalid_query_gets_400_not_401 :
    envShortQueryNoUser.authResult = none ∧
    (askJijiHandler envShortQueryNoUser emptyStore).resp.status = 400 ∧
    (askJijiHandler envShortQueryNoUser emptyStore).resp.status ≠ 401 :=
  ⟨rfl, by decide, by decide⟩

/-- **C1 (amended).** For every request that is not rate limited, carries a
valid query, and finds the Supabase configuration present, if the bearer
credential does not verify to a user then the response status is 401. -/
theorem unauthenticated_valid_request_gets_401
    (env : ReqEnv) (store : RateLimitStore) (tq : String)
    (hrl : (rateGate env store).1 = false)
    (hq : validateQuery env.query = Except.ok tq)
    (hurl : env.supabaseUrl ≠ "") (hkey : env.supabaseAnonKey ≠ "")
    (hauth : env.authResult = none) :
    (askJijiHandler env store).resp.status = 401 := by
  unfold askJijiHandler
  simp only []
  rw [askJijiOutcome_postAuth env store tq hrl hq hurl hkey]
  simp [postAuth, hauth, renderResponse]

/-- Witness for the amended C1 at a concrete unauthenticated request with
a valid query. -/
theorem unauthenticated_valid_request_gets_401_witness :
    (rateGate envValidQueryNoUser emptyStore).1 = false ∧
    validateQuery envValidQueryNoUser.query = Except.ok "RAG basics" ∧
    envValidQueryNoUser.supabaseUrl ≠ "" ∧
    envValidQueryNoUser.supabaseAnonKey ≠ "" ∧
    envValidQueryNoUser.authResult = none ∧
    (askJijiHandler envValidQueryNoUser emptyStore).resp.status = 401 :=
  ⟨rfl, by decide, by decide, by decide, rfl,
   unauthenticated_valid_request_gets_401 envValidQueryNoUser emptyStore "RAG basics"
     rfl (by decide) (by decide) (by decide) rfl⟩

/-! ## Claim C3 -/

/-- **C3 counterexample.** When the resource search fails *and* the
concurrent profile upsert also fails, the handler reports the profile
failure, not `"Failed to fetch resources."`: the profile error is checked
first, so the `ResourceFetchFailed` outcome is not produced regardless of
the upsert outcome. -/
theorem both_parallel_failures_report_profile_error :
    envBothParallelFail.upsertError = some "upsert boom" ∧
    envBothParallelFail.searchResult = Except.error "search boom" ∧
    (askJijiHandler envBothParallelFail emptyStore).resp.body.errorMsg =
      some "Failed to sync profile." ∧
    (askJijiHandler envBothParallelFail emptyStore).resp.body.errorMsg ≠
      some "Failed to fetch resources." :=
  ⟨rfl, rfl, by decide, by decide⟩

/-- **C3 (amended).** When the resource search fails and the concurrent
profile upsert succeeded, the request is rejected with status 500 and
body `{error: "Failed to fetch resources.", details: <underlying message>}`. -/
theorem search_failure_with_upsert_ok_rejects_500
    (env : ReqEnv) (store : RateLimitStore) (tq : String) (u : User) (msg : String)
    (hrl : (rateGate env store).1 = false)
    (hq : validateQuery env.query = Except.ok tq)
    (hurl : env.supabaseUrl ≠ "") (hkey : env.supabaseAnonKey ≠ "")
    (hauth : env.authResult = some u)
    (hup : env.upsertError = none)
    (hsearch : env.searchResult = Except.error msg) :
    (askJijiHandler env store).resp.status = 500 ∧
    (askJijiHandler env store).resp.body =
      RespBody.failure "Failed to fetch resources." (some msg) := by
  unfold askJijiHandler
  simp only []
  rw [askJijiOutcome_postAuth env store tq hrl hq hurl hkey]
  simp [postAuth, hauth, hup, hsearch, renderResponse]

/-- Witness for the amended C3 at a concrete request whose resource
search fails while the profile upsert succeeds. -/
theorem search_failure_with_upsert_ok_rejects_500_witness :
    envSearchFails.upsertError = none ∧
    envSearchFails.searchResult = Except.error "search boom" ∧
    (askJijiHandler envSearchFails emptyStore).resp.status = 500 ∧
    (askJijiHandler envSearchFails emptyStore).resp.body =
      RespBody.failure "Failed to fetch resources." (some "search boom") :=
  ⟨rfl, rfl,
   (search_failure_with_upsert_ok_rejects_500 envSearchFails emptyStore "RAG basics"
     ⟨"user-1", none⟩ "search boom" rfl (by decide) (by decide) (by decide) rfl rfl rfl).1,
   (search_failure_with_upsert_ok_rejects_500 envSearchFails emptyStore "RAG basics"
     ⟨"user-1", none⟩ "search boom" rfl (by decide) (by decide) (by decide) rfl rfl rfl).2⟩

/-! ## Claim C4 -/

/-- **C4 counterexample.** The empty string *is* a string, yet it fails
with the `NotAString` outcome (`"Query must be a non-empty string."`),
not a length failure: `!query` is true for the falsy empty string.  So the
`NotAString` outcome is not produced exactly on missing-or-not-textual
inputs, and not every string input that fails validation fails on length. -/
theorem empty_string_fails_as_not_a_string :
    validateQuery (QueryField.str "") = Except.error Outcome.invalidNotAString ∧
    validateQuery (QueryField.str "") ≠ Except.error Outcome.invalidLength :=
  ⟨rfl, by decide⟩

/-- **C4 (amended).** The validator fails with the `NotAString` outcome
exactly when the query field is missing, not a string, or the empty
string; for every non-empty string input, a validation failure is the
length failure, occurring exactly when the trimmed length is below 3 or
above 500. -/
theorem validator_not_a_string_exactly (q : QueryField) :
    (validateQuery q = Except.error Outcome.invalidNotAString ↔
      q = QueryField.missing ∨ (∃ b, q = QueryField.nonString b) ∨
      q = QueryField.str "") ∧
    (∀ s : String, q = QueryField.str s → s ≠ "" →
      (validateQuery q = Except.error Outcome.invalidLength ↔
        (jsTrim s).length < 3 ∨ (jsTrim s).length > MAX_QUERY_LENGTH) ∧
      (validateQuery q = Except.error Outcome.invalidLength ∨
       validateQuery q = Except.ok (jsTrim s))) := by
  constructor
  · cases q with
    | missing => simp [validateQuery]
    | nonString b => simp [validateQuery]
    | str s =>
      by_cases hs : s = ""
      · subst hs
        simp [validateQuery]
      · rw [validateQuery, if_neg hs]
        by_cases hl : (jsTrim s).length < 3 ∨ (jsTrim s).length > MAX_QUERY_LENGTH
        · rw [if_pos hl]
          simp [hs]
        · rw [if_neg hl]
          simp [hs]
  · intro s hq hs
    subst hq
    rw [validateQuery, if_neg hs]
    by_cases hl : (jsTrim s).length < 3 ∨ (jsTrim s).length > MAX_QUERY_LENGTH
    · rw [if_pos hl]
      exact ⟨by simp [hl], Or.inl rfl⟩
    · rw [if_neg hl]
      exact ⟨by simp [hl], Or.inr rfl⟩

/-- Witness for the amended C4: the string `"ab"` is non-empty and fails
validation with the length failure. -/
theorem validator_not_a_string_exactly_witness :
    validateQuery (QueryField.str "ab") = Except.error Outcome.invalidLength :=
  ((validator_not_a_string_exactly (QueryField.str "ab")).2 "ab" rfl
    (by decide)).1.mpr (by decide)

/-! ## Claim C5 -/

/-- **C5.** For every string `s` submitted as the query, validation
accepts `s` iff `3 ≤ (jsTrim s).length ≤ 500`, and on acceptance the
pipeline proceeds with exactly the trimmed string. -/
theorem validation_accepts_iff_trimmed_length (s : String) :
    ((∃ t, validateQuery (QueryField.str s) = Except.ok t) ↔
      3 ≤ (jsTrim s).length ∧ (jsTrim s).length ≤ MAX_QUERY_LENGTH) ∧
    (∀ t, validateQuery (QueryField.str s) = Except.ok t → t = jsTrim s) := by
  by_cases hs : s = ""
  · subst hs
    constructor
    · constructor
      · rintro ⟨t, ht⟩
        simp [validateQuery] at ht
      · rintro ⟨h3, _⟩
        rw [show (jsTrim "").length = 0 from rfl] at h3
        omega
    · intro t ht
      simp [validateQuery] at ht
  · rw [validateQuery, if_neg hs]
    by_cases hl : (jsTrim s).length < 3 ∨ (jsTrim s).length > MAX_QUERY_LENGTH
    · rw [if_pos hl]
      constructor
      · constructor
        · rintro ⟨t, ht⟩
          simp at ht
        · intro h3
          omega
      · intro t ht
        simp at ht
    · rw [if_neg hl]
      push_neg at hl
      constructor
      · exact ⟨fun _ => ⟨by omega, by omega⟩, fun _ => ⟨jsTrim s, rfl⟩⟩
      · intro t ht
        exact (Except.ok.injEq _ _ ▸ ht).symm

/-- Witness for C5: the accepted query `" abc "` proceeds as its trimmed
form `"abc"`. -/
theorem validation_accepts_iff_trimmed_length_witness :
    ("abc" : String) = jsTrim " abc " :=
  (validation_accepts_iff_trimmed_length " abc ").2 "abc" (by decide)

/-! ## Claim C6 -/

/-- **C6.** When the profile upsert fails, the response is 500 with body
`{error: "Failed to sync profile.", details: <underlying message>}` and
the query-log insert is never attempted, regardless of the concurrent
resource search's result. -/
theorem upsert_failure_rejects_500_and_skips_query_log
    (env : ReqEnv) (store : RateLimitStore) (tq : String) (u : User) (msg : String)
    (hrl : (rateGate env store).1 = false)
    (hq : validateQuery env.query = Except.ok tq)
    (hurl : env.supabaseUrl ≠ "") (hkey : env.supabaseAnonKey ≠ "")
    (hauth : env.authResult = some u)
    (hup : env.upsertError = some msg) :
    (askJijiHandler env store).resp.status = 500 ∧
    (askJijiHandler env store).resp.body =
      RespBody.failure "Failed to sync profile." (some msg) ∧
    (askJijiHandler env store).queryInserted = false := by
  unfold askJijiHandler
  simp only []
  rw [askJijiOutcome_postAuth env store tq hrl hq hurl hkey]
  simp [postAuth, hauth, hup, renderResponse]

/-- Witness for C6 at a concrete request whose profile upsert fails
while the resource search succeeds. -/
theorem upsert_failure_rejects_500_and_skips_query_log_witness :
    envUpsertFails.upsertError = some "duplicate key" ∧
    (envUpsertFails.searchResult = Except.ok [⟨"r1", "t", "d", "video", "p"⟩]) ∧
    (askJijiHandler envUpsertFails emptyStore).resp.status = 500 ∧
    (askJijiHandler envUpsertFails emptyStore).resp.body =
      RespBody.failure "Failed to sync profile." (some "duplicate key") ∧
    (askJijiHandler envUpsertFails emptyStore).queryInserted = false :=
  ⟨rfl, rfl,
   (upsert_failure_rejects_500_and_skips_query_log envUpsertFails emptyStore
     "RAG basics" ⟨"user-1", none⟩ "duplicate key" rfl (by decide) (by decide)
     (by decide) rfl rfl).1,
   (upsert_failure_rejects_500_and_skips_query_log envUpsertFails emptyStore
     "RAG basics" ⟨"user-1", none⟩ "duplicate key" rfl (by decide) (by decide)
     (by decide) rfl rfl).2.1,
   (upsert_failure_rejects_500_and_skips_query_log envUpsertFails emptyStore
     "RAG basics" ⟨"user-1", none⟩ "duplicate key" rfl (by decide) (by decide)
     (by decide) rfl rfl).2.2⟩

/-! ## Claim C7 -/

/-- **C7.** For every resource record in the fetched list, the assembled
response entry at the same position has `url` equal to the storage
collaborator's public-URL resolution of the record's storage path, and
its `id`, `title`, `description` and `type` fields equal to the record's
fields verbatim. -/
theorem resources_with_links_projects_each_record
    (getPublicUrl : String → String) (rs : List ResourceRecord)
    (i : Nat) (h : i < rs.length) (h2 : i < (resourcesWithLinks getPublicUrl rs).length) :
    (resourcesWithLinks getPublicUrl rs).get ⟨i, h2⟩ =
      ⟨(rs.get ⟨i, h⟩).id, (rs.get ⟨i, h⟩).title, (rs.get ⟨i, h⟩).description,
       (rs.get ⟨i, h⟩).type, getPublicUrl ((rs.get ⟨i, h⟩).storage_path)⟩ := by
  simp [resourcesWithLinks]

/-- A sample catalog record for the C7 witness. -/
def sampleRecord : ResourceRecord :=
  ⟨"r1", "Intro to RAG", "Basics of retrieval", "video", "videos/intro.mp4"⟩

/-- A sample storage collaborator for the C7 witness. -/
def cdnUrl (p : String) : String := String.append "https://cdn.example/" p

/-- Witness for C7 at a concrete record and storage resolver. -/
theorem resources_with_links_projects_each_record_witness :
    (resourcesWithLinks cdnUrl [sampleRecord]).get ⟨0, by decide⟩ =
      ⟨"r1", "Intro to RAG", "Basics of retrieval", "video", cdnUrl "videos/intro.mp4"⟩ :=
  resources_with_links_projects_each_record cdnUrl [sampleRecord] 0 (by decide) (by decide)

/-! ## Claim C8 -/

/-- **C8.** Every response from `POST /ask-jiji` — success or any failure
outcome — carries the request id generated at the top of the handler in
its `X-Request-Id` header. -/
theorem every_response_carries_request_id (env : ReqEnv) (store : RateLimitStore) :
    (askJijiHandler env store).resp.xRequestId = env.requestId := by
  unfold askJijiHandler
  exact renderResponse_xRequestId env.requestId _

/-! ## Claim C9 -/

/-- **C9.** A response body has its `details` field populated exactly for
the downstream-collaborator failures (profile sync, resource fetch, query
log), and never for the rate-limit, validation, misconfiguration or auth
failures (nor on success). -/
theorem details_only_for_downstream_failures (rid : String) (o : Outcome) :
    (renderResponse rid o).body.detailsField.isSome = true ↔
      (∃ m, o = Outcome.profileSyncFailed m) ∨
      (∃ m, o = Outcome.resourceFetchFailed m) ∨
      (∃ m, o = Outcome.queryLogFailed m) := by
  cases o <;> simp [renderResponse, RespBody.detailsField]

/-! ## Claim C10 -/

/-- **C10.** For every request whose derived client key is empty (no
`X-Forwarded-For` entry and no transport peer address), the rate-limit
check is skipped entirely: the request is never answered with 429 and the
rate-limit store is not touched. -/
theorem empty_client_key_skips_rate_limiting (env : ReqEnv) (store : RateLimitStore)
    (h : getClientIp env.xff env.reqIp = "") :
    (askJijiHandler env store).resp.status ≠ 429 ∧
    (askJijiHandler env store).store = store := by
  have hgate : rateGate env store = (false, store) := by
    rw [rateGate]
    simp [h]
  unfold askJijiHandler askJijiOutcome
  rw [hgate]
  simp only [Bool.false_eq_true, if_false]
  cases hv : validateQuery env.query with
  | error o =>
    refine ⟨?_, rfl⟩
    rcases validateQuery_error_cases _ _ hv with h1 | h1 <;> subst h1 <;>
      simp [renderResponse]
  | ok tq =>
    constructor
    · by_cases hc : env.supabaseUrl = "" ∨ env.supabaseAnonKey = ""
      · simp [hc, renderResponse]
      · have hne := postAuth_fst_ne_rateLimited env tq
        simp only [hc, if_false]
        cases hpa : (postAuth env tq).1 <;>
          first
            | exact absurd hpa hne
            | simp [renderResponse]
    · by_cases hc : env.supabaseUrl = "" ∨ env.supabaseAnonKey = "" <;> simp [hc]

/-- Witness for C10 at a concrete request with no forwarded header and an
empty transport address. -/
theorem empty_client_key_skips_rate_limiting_witness :
    getClientIp envNoClientKey.xff envNoClientKey.reqIp = "" ∧
    ((askJijiHandler envNoClientKey emptyStore).resp.status ≠ 429 ∧
     (askJijiHandler envNoClientKey emptyStore).store = emptyStore) :=
  ⟨rfl, empty_client_key_skips_rate_limiting envNoClientKey emptyStore rfl⟩

end AskJiji
